import Mathlib

/-!
Verification of the DexScreener MCP server core
(`dexscreener_mcp/client.py` and `dexscreener_mcp/server.py`).

The Python code is shallowly embedded:
* JSON payloads become the inductive type `Json`;
* the two cache dictionaries become association lists inside `ClientState`;
* `datetime.now()` becomes an explicit `now : Nat` argument (seconds);
* the `asyncio_throttle.Throttler` becomes the `availablePermits` /
  `permitsConsumed` counters (a permit is consumed on entering
  `async with self.throttler`); a fetch that would have to wait on the
  throttler is reported as the `blocked` outcome;
* the network is an oracle `List NetOutcome`, one entry per attempted GET;
* Python exceptions become values of `PyExc` threaded through `Except` /
  `OpOutcome`.
-/

/-- JSON values, as returned by `response.json()`.  Numbers are modelled as
integers (no claim involves fractional values). -/
inductive Json where
  | null
  | bool (b : Bool)
  | num (n : Int)
  | str (s : String)
  | arr (elems : List Json)
  | obj (fields : List (String × Json))

/-- The Python exceptions that flow through the client and server code. -/
inductive PyExc where
  /-- an `httpx.RequestError` escaping a function uncaught -/
  | httpRequestError (msg : String)
  /-- an `httpx.HTTPStatusError` escaping a function uncaught -/
  | httpStatusExc (code : Nat) (text : String)
  /-- `DexScreenerAPIError(message, status_code)` from `client.py` -/
  | dexAPIError (message : String) (statusCode : Option Nat)
  /-- `pydantic.ValidationError` -/
  | validationError (msg : String)
  /-- builtin `ValueError` -/
  | valueError (msg : String)
  /-- builtin `TypeError` -/
  | typeError (msg : String)
  /-- builtin `KeyError` -/
  | keyError (key : String)
deriving DecidableEq

/-- Association-list lookup, the model of Python `dict` indexing. -/
def alistLookup {α : Type} : List (String × α) → String → Option α
  | [], _ => none
  | (k, v) :: rest, key => if k = key then some v else alistLookup rest key

/-- Association-list insert with Python `dict` semantics: overwrite in place
if the key is present, otherwise append. -/
def alistInsert {α : Type} : List (String × α) → String → α → List (String × α)
  | [], key, v => [(key, v)]
  | (k, w) :: rest, key, v =>
    if k = key then (key, v) :: rest else (k, w) :: alistInsert rest key v

/-- Association-list deletion, the model of Python `del d[key]`. -/
def alistErase {α : Type} : List (String × α) → String → List (String × α)
  | [], _ => []
  | (k, w) :: rest, key =>
    if k = key then alistErase rest key else (k, w) :: alistErase rest key

theorem alistLookup_insert {α : Type} (l : List (String × α)) (k k' : String) (v : α) :
    alistLookup (alistInsert l k v) k' = if k = k' then some v else alistLookup l k' := by
  induction l with
  | nil => by_cases h : k = k' <;> simp [alistInsert, alistLookup, h]
  | cons p rest ih =>
    obtain ⟨pk, pv⟩ := p
    simp only [alistInsert]
    by_cases hpk : pk = k
    · subst hpk
      by_cases h : pk = k' <;> simp [alistLookup, h]
    · rw [if_neg hpk]
      by_cases h2 : pk = k'
      · have hkk : ¬k = k' := fun hk => hpk (h2.trans hk.symm)
        simp [alistLookup, h2, hkk]
      · simp [alistLookup, h2, ih]

theorem alistLookup_erase {α : Type} (l : List (String × α)) (k k' : String) :
    alistLookup (alistErase l k) k' = if k = k' then none else alistLookup l k' := by
  induction l with
  | nil => by_cases h : k = k' <;> simp [alistErase, alistLookup, h]
  | cons p rest ih =>
    obtain ⟨pk, pv⟩ := p
    simp only [alistErase]
    by_cases hpk : pk = k
    · subst hpk
      rw [if_pos rfl, ih]
      by_cases h : pk = k' <;> simp [alistLookup, h]
    · rw [if_neg hpk]
      by_cases h2 : pk = k'
      · have hkk : ¬k = k' := fun hk => hpk (h2.trans hk.symm)
        simp [alistLookup, h2, hkk]
      · simp [alistLookup, h2, ih]

/-- The mutable state of a `DexScreenerClient` relevant to the claims:
the two cache dictionaries, the cache TTL, and the throttler / network
counters.  (`timeout` and `max_retries` are further config fields of the
Python class; neither influences any modelled behaviour — the retry
decorator hardcodes `stop_after_attempt(3)` — so they are not carried.) -/
structure ClientState where
  /-- `self._cache : Dict[str, Dict]` -/
  cache : List (String × Json)
  /-- `self._cache_timestamps : Dict[str, datetime]` -/
  cacheTimestamps : List (String × Nat)
  /-- `self.cache_ttl` (seconds) -/
  cacheTtl : Nat
  /-- permits currently available in the throttler's window -/
  availablePermits : Nat
  /-- permits consumed so far (entries into `async with self.throttler`) -/
  permitsConsumed : Nat
  /-- number of HTTP GETs performed (`self.client.get` calls) -/
  networkCalls : Nat
  /-- `self.rate_limit` (requests per minute, config) -/
  rateLimit : Nat

/-- A fresh client as built by `DexScreenerClient.__init__` with the given
configuration: both cache dicts empty, nothing consumed, full budget. -/
def initClientState (ttl permits rl : Nat) : ClientState :=
  { cache := [], cacheTimestamps := [], cacheTtl := ttl,
    availablePermits := permits, permitsConsumed := 0,
    networkCalls := 0, rateLimit := rl }

/-- Insertion sort on parameter pairs by key, the model of
`sorted(params.items())` (dict keys are unique, so key order suffices). -/
def insertSorted (p : String × String) : List (String × String) → List (String × String)
  | [] => [p]
  | q :: rest => if p.1 ≤ q.1 then p :: q :: rest else q :: insertSorted p rest

def sortByKey : List (String × String) → List (String × String)
  | [] => []
  | p :: rest => insertSorted p (sortByKey rest)

/-- `DexScreenerClient._get_cache_key`: `endpoint?k1=v1&k2=v2` with sorted
keys, or just `endpoint` when the params dict is empty/None (falsy). -/
def getCacheKey (endpoint : String) (params : List (String × String)) : String :=
  if params = [] then endpoint
  else endpoint ++ "?" ++
    String.intercalate "&" ((sortByKey params).map (fun p => p.1 ++ "=" ++ p.2))

/-- `DexScreenerClient._is_cache_valid`: the key has a timestamp and its age
is strictly below the TTL. -/
def isCacheValid (st : ClientState) (key : String) (now : Nat) : Bool :=
  match alistLookup st.cacheTimestamps key with
  | none => false
  | some ts => decide (now - ts < st.cacheTtl)

/-- `DexScreenerClient._get_cached_data`.  Returns the cached payload while
valid; on an invalid key that is still in `_cache` it deletes the entry from
both dicts (lazy eviction).  The `KeyError` branches model the raw Python
`dict` accesses (`self._cache[cache_key]`, `del self._cache_timestamps[...]`)
on states where the two dicts disagree; they are unreachable from a fresh
client (see the key-set invariant below). -/
def getCachedData (st : ClientState) (key : String) (now : Nat) :
    Except PyExc (Option Json) × ClientState :=
  if isCacheValid st key now then
    match alistLookup st.cache key with
    | some v => (Except.ok (some v), st)
    | none => (Except.error (PyExc.keyError key), st)
  else
    match alistLookup st.cache key with
    | none => (Except.ok none, st)
    | some _ =>
      let st1 := { st with cache := alistErase st.cache key }
      match alistLookup st.cacheTimestamps key with
      | none => (Except.error (PyExc.keyError key), st1)
      | some _ =>
        (Except.ok none, { st1 with cacheTimestamps := alistErase st.cacheTimestamps key })

/-- `DexScreenerClient._cache_data`: store the payload and stamp it. -/
def cacheData (st : ClientState) (key : String) (data : Json) (now : Nat) : ClientState :=
  { st with cache := alistInsert st.cache key data,
            cacheTimestamps := alistInsert st.cacheTimestamps key now }

/-- Outcome of one HTTP GET attempt, as seen by `_make_request`'s `try`
block: a decoded JSON body, an `httpx.HTTPStatusError` (raised by
`response.raise_for_status()`), or an `httpx.RequestError`. -/
inductive NetOutcome where
  | success (body : Json)
  | httpStatusError (code : Nat) (text : String)
  | requestError (msg : String)

/-- Result of running a piece of client code: normal return, a raised
exception, or a suspension on the rate limiter that cannot complete
(no permit available). -/
inductive OpOutcome (α : Type) where
  | ok (v : α)
  | err (e : PyExc)
  | blocked

/-- The network oracle: outcome of the next GET.  An exhausted script is
read as a connection failure. -/
def netHead : List NetOutcome → NetOutcome
  | [] => NetOutcome.requestError "connection lost"
  | o :: _ => o

/-- One execution of the body of `_make_request` (the function tenacity
wraps): check the cache, otherwise take a throttler permit, perform the GET,
cache a success, and convert the two httpx failure classes into
`DexScreenerAPIError` (`HTTP {code}: {text}` with the status code, or
`Request failed: {msg}` with no status code). -/
def makeRequestBody (st : ClientState) (now : Nat) (net : NetOutcome)
    (endpoint : String) (params : List (String × String)) :
    OpOutcome Json × ClientState :=
  let key := getCacheKey endpoint params
  match getCachedData st key now with
  | (Except.error e, st1) => (OpOutcome.err e, st1)
  | (Except.ok (some v), st1) => (OpOutcome.ok v, st1)
  | (Except.ok none, st1) =>
    if st1.availablePermits = 0 then (OpOutcome.blocked, st1)
    else
      let st2 := { st1 with availablePermits := st1.availablePermits - 1,
                            permitsConsumed := st1.permitsConsumed + 1,
                            networkCalls := st1.networkCalls + 1 }
      match net with
      | NetOutcome.success body => (OpOutcome.ok body, cacheData st2 key body now)
      | NetOutcome.httpStatusError code text =>
        (OpOutcome.err (PyExc.dexAPIError ("HTTP " ++ toString code ++ ": " ++ text) (some code)), st2)
      | NetOutcome.requestError msg =>
        (OpOutcome.err (PyExc.dexAPIError ("Request failed: " ++ msg) none), st2)

/-- The retry predicate of the tenacity decorator on `_make_request`:
`retry_if_exception_type((httpx.RequestError, httpx.HTTPStatusError))`.
Note that it matches the raw httpx exception classes, not
`DexScreenerAPIError`. -/
def tenacityIsRetryable : PyExc → Bool
  | PyExc.httpRequestError _ => true
  | PyExc.httpStatusExc _ _ => true
  | _ => false

/-- `wait_exponential(multiplier=1, min=1, max=10)` for a given attempt
number (1-based): `clamp(1 * 2^(n-1))` to `[1, 10]`.  Dead in practice:
no exception the wrapped body raises is retryable. -/
def backoffWait (attemptNumber : Nat) : Nat :=
  max 1 (min 10 (2 ^ (attemptNumber - 1)))

/-- Result of `_make_request` through the tenacity decorator. -/
structure MakeReqResult where
  outcome : OpOutcome Json
  state : ClientState
  /-- how many times the wrapped body ran -/
  attempts : Nat
  /-- the backoff delays slept between attempts -/
  waits : List Nat

/-- The tenacity driver for `@retry(retry=retry_if_exception_type((httpx.RequestError,
httpx.HTTPStatusError)), stop=stop_after_attempt(3), wait=wait_exponential(...))`:
run the body; re-run it after a backoff wait while the raised exception
matches the predicate and fewer than 3 attempts have been made, otherwise
propagate.  `fuel` is an upper bound on the remaining attempts (the
`attempts + 1 < 3` stop condition is what actually terminates the loop;
the fuel-exhausted fallback is unreachable from `makeRequest`). -/
def tenacityGo (now : Nat) (endpoint : String) (params : List (String × String)) :
    Nat → ClientState → List NetOutcome → Nat → List Nat → MakeReqResult
  | 0, st, _, attempts, waits =>
    ⟨OpOutcome.err (PyExc.dexAPIError "retry loop exhausted" none), st, attempts, waits⟩
  | fuel + 1, st, nets, attempts, waits =>
    match makeRequestBody st now (netHead nets) endpoint params with
    | (OpOutcome.ok v, st1) => ⟨OpOutcome.ok v, st1, attempts + 1, waits⟩
    | (OpOutcome.blocked, st1) => ⟨OpOutcome.blocked, st1, attempts + 1, waits⟩
    | (OpOutcome.err e, st1) =>
      if tenacityIsRetryable e && decide (attempts + 1 < 3) then
        tenacityGo now endpoint params fuel st1 nets.tail (attempts + 1)
          (waits ++ [backoffWait (attempts + 1)])
      else ⟨OpOutcome.err e, st1, attempts + 1, waits⟩

/-- `DexScreenerClient._make_request(endpoint, params)` under its decorator. -/
def makeRequest (st : ClientState) (now : Nat) (nets : List NetOutcome)
    (endpoint : String) (params : List (String × String)) : MakeReqResult :=
  tenacityGo now endpoint params 3 st nets 0 []

/-- `types.TokenInfo` (pydantic).  `logoURI` is an optional `HttpUrl`;
it is carried raw here (its URL-format validation is not exercised by any
claim). -/
structure TokenInfo where
  address : String
  name : String
  symbol : String
  decimals : Option Int
  logoUri : Option Json

/-- `types.PairInfo` (pydantic).  Input keys are the pydantic aliases
(`chainId`, `pairAddress`, ...).  The optional statistical sub-maps and the
timestamp (`txns`, `volume`, `priceChange`, `liquidity`, `fdv`, `marketCap`,
`pairCreatedAt`) are carried raw: pydantic additionally type-checks them,
but no claim exercises those checks.  `url` is an `HttpUrl`; its URL-format
validation is likewise not exercised. -/
structure PairInfo where
  chainId : String
  dexId : String
  url : String
  pairAddress : String
  baseToken : TokenInfo
  quoteToken : TokenInfo
  priceNative : Option String
  priceUsd : Option String
  txns : Option Json
  volume : Option Json
  priceChange : Option Json
  liquidity : Option Json
  fdv : Option Json
  marketCap : Option Json
  pairCreatedAt : Option Json

/-- `types.TokenResponse`: `pairs: List[PairInfo]` with an empty default. -/
structure TokenResponse where
  pairs : List PairInfo

/-- `types.SearchResult`: `pairs: List[PairInfo]` with an empty default. -/
structure SearchResult where
  pairs : List PairInfo

/-- `types.TrendingResponse`: `pairs: List[PairInfo]` with an empty default. -/
structure TrendingResponse where
  pairs : List PairInfo

/-- `types.PairResponse`: `pair: Optional[PairInfo]`. -/
structure PairResponse where
  pair : Option PairInfo

/-- `types.RateLimitInfo`. -/
structure RateLimitInfo where
  requestsRemaining : Nat
  resetTime : Nat
  limit : Nat

/-- pydantic: a required `str` field. -/
def reqStr (fields : List (String × Json)) (key : String) : Except PyExc String :=
  match alistLookup fields key with
  | some (Json.str s) => Except.ok s
  | some _ => Except.error (PyExc.validationError (key ++ ": str type expected"))
  | none => Except.error (PyExc.validationError (key ++ ": field required"))

/-- pydantic: an optional `str` field (absent or explicit null gives None). -/
def optStr (fields : List (String × Json)) (key : String) : Except PyExc (Option String) :=
  match alistLookup fields key with
  | none => Except.ok none
  | some Json.null => Except.ok none
  | some (Json.str s) => Except.ok (some s)
  | some _ => Except.error (PyExc.validationError (key ++ ": str type expected"))

/-- pydantic: an optional `int` field. -/
def optInt (fields : List (String × Json)) (key : String) : Except PyExc (Option Int) :=
  match alistLookup fields key with
  | none => Except.ok none
  | some Json.null => Except.ok none
  | some (Json.num n) => Except.ok (some n)
  | some (Json.bool _) => Except.error (PyExc.validationError (key ++ ": value is not a valid integer"))
  | some (Json.str _) => Except.error (PyExc.validationError (key ++ ": value is not a valid integer"))
  | some (Json.arr _) => Except.error (PyExc.validationError (key ++ ": value is not a valid integer"))
  | some (Json.obj _) => Except.error (PyExc.validationError (key ++ ": value is not a valid integer"))

/-- An optional field carried raw (see the `PairInfo` doc comment). -/
def optRaw (fields : List (String × Json)) (key : String) : Option Json :=
  match alistLookup fields key with
  | none => none
  | some Json.null => none
  | some j => some j

/-- `TokenInfo(**j)`: pydantic construction of a `TokenInfo` from a mapping. -/
def decodeTokenInfo (j : Json) : Except PyExc TokenInfo :=
  match j with
  | Json.obj fields => do
    let address ← reqStr fields "address"
    let name ← reqStr fields "name"
    let symbol ← reqStr fields "symbol"
    let decimals ← optInt fields "decimals"
    Except.ok ⟨address, name, symbol, decimals, optRaw fields "logoURI"⟩
  | _ => Except.error (PyExc.validationError "TokenInfo: value is not a valid dict")

/-- `PairInfo(**j)`: pydantic construction of a `PairInfo` from a mapping
(keys are the field aliases). -/
def decodePairInfo (j : Json) : Except PyExc PairInfo :=
  match j with
  | Json.obj fields => do
    let chainId ← reqStr fields "chainId"
    let dexId ← reqStr fields "dexId"
    let url ← reqStr fields "url"
    let pairAddress ← reqStr fields "pairAddress"
    let baseToken ←
      match alistLookup fields "baseToken" with
      | none => Except.error (PyExc.validationError "baseToken: field required")
      | some bj => decodeTokenInfo bj
    let quoteToken ←
      match alistLookup fields "quoteToken" with
      | none => Except.error (PyExc.validationError "quoteToken: field required")
      | some qj => decodeTokenInfo qj
    let priceNative ← optStr fields "priceNative"
    let priceUsd ← optStr fields "priceUsd"
    Except.ok ⟨chainId, dexId, url, pairAddress, baseToken, quoteToken,
      priceNative, priceUsd,
      optRaw fields "txns", optRaw fields "volume", optRaw fields "priceChange",
      optRaw fields "liquidity", optRaw fields "fdv", optRaw fields "marketCap",
      optRaw fields "pairCreatedAt"⟩
  | _ => Except.error (PyExc.validationError "PairInfo: value is not a valid dict")

/-- pydantic validation of a `pairs: List[PairInfo]` field with the
`default_factory=list` default: absent gives `[]`, a list is decoded
element-wise, anything else is a `ValidationError`. -/
def decodePairsField (fields : List (String × Json)) : Except PyExc (List PairInfo) :=
  match alistLookup fields "pairs" with
  | none => Except.ok []
  | some (Json.arr elems) => elems.mapM decodePairInfo
  | some _ => Except.error (PyExc.validationError "pairs: value is not a valid list")

/-- `TokenResponse(**data)`.  A non-mapping payload raises `TypeError`
(not `ValidationError`) in Python; it is modelled coarsely. -/
def decodeTokenResponse (data : Json) : Except PyExc TokenResponse :=
  match data with
  | Json.obj fields => (decodePairsField fields).map TokenResponse.mk
  | _ => Except.error (PyExc.typeError "argument after ** must be a mapping")

/-- `SearchResult(**data)`. -/
def decodeSearchResult (data : Json) : Except PyExc SearchResult :=
  match data with
  | Json.obj fields => (decodePairsField fields).map SearchResult.mk
  | _ => Except.error (PyExc.typeError "argument after ** must be a mapping")

/-- `TrendingResponse(**data)`. -/
def decodeTrendingResponse (data : Json) : Except PyExc TrendingResponse :=
  match data with
  | Json.obj fields => (decodePairsField fields).map TrendingResponse.mk
  | _ => Except.error (PyExc.typeError "argument after ** must be a mapping")

/-- `PairResponse(**data)`. -/
def decodePairResponse (data : Json) : Except PyExc PairResponse :=
  match data with
  | Json.obj fields =>
    match alistLookup fields "pair" with
    | none => Except.ok ⟨none⟩
    | some Json.null => Except.ok ⟨none⟩
    | some pj => (decodePairInfo pj).map (fun p => ⟨some p⟩)
  | _ => Except.error (PyExc.typeError "argument after ** must be a mapping")

/-- The `try: ... except ValidationError as e: raise DexScreenerAPIError(
f"Invalid response format: {str(e)}")` pattern shared by every client
method: a pydantic `ValidationError` is re-raised as a `DexScreenerAPIError`
with no status code; every other outcome passes through. -/
def wrapValidation {α : Type} : Except PyExc α → Except PyExc α
  | Except.error (PyExc.validationError m) =>
    Except.error (PyExc.dexAPIError ("Invalid response format: " ++ m) none)
  | r => r

def optJson {α : Type} (f : α → Json) : Option α → Json
  | none => Json.null
  | some x => f x

/-- `TokenInfo.dict()`: field names (not aliases), `None` as null. -/
def encodeTokenInfo (t : TokenInfo) : Json :=
  Json.obj [("address", Json.str t.address), ("name", Json.str t.name),
    ("symbol", Json.str t.symbol), ("decimals", optJson Json.num t.decimals),
    ("logo_uri", t.logoUri.getD Json.null)]

/-- `PairInfo.dict()`. -/
def encodePairInfo (p : PairInfo) : Json :=
  Json.obj [("chain_id", Json.str p.chainId), ("dex_id", Json.str p.dexId),
    ("url", Json.str p.url), ("pair_address", Json.str p.pairAddress),
    ("base_token", encodeTokenInfo p.baseToken),
    ("quote_token", encodeTokenInfo p.quoteToken),
    ("price_native", optJson Json.str p.priceNative),
    ("price_usd", optJson Json.str p.priceUsd),
    ("txns", p.txns.getD Json.null), ("volume", p.volume.getD Json.null),
    ("price_change", p.priceChange.getD Json.null),
    ("liquidity", p.liquidity.getD Json.null), ("fdv", p.fdv.getD Json.null),
    ("market_cap", p.marketCap.getD Json.null),
    ("pair_created_at", p.pairCreatedAt.getD Json.null)]

def encodeTokenResponse (r : TokenResponse) : Json :=
  Json.obj [("pairs", Json.arr (r.pairs.map encodePairInfo))]

def encodeSearchResult (r : SearchResult) : Json :=
  Json.obj [("pairs", Json.arr (r.pairs.map encodePairInfo))]

def encodeTrendingResponse (r : TrendingResponse) : Json :=
  Json.obj [("pairs", Json.arr (r.pairs.map encodePairInfo))]

def encodePairResponse (r : PairResponse) : Json :=
  Json.obj [("pair", optJson encodePairInfo r.pair)]

/-- `RateLimitInfo.dict()`; the `reset_time` datetime is abstracted as the
numeric timestamp `now + 60`. -/
def encodeRateLimitInfo (r : RateLimitInfo) : Json :=
  Json.obj [("requests_remaining", Json.num r.requestsRemaining),
    ("reset_time", Json.num r.resetTime), ("limit", Json.num r.limit)]

/-- Lift a raw `_make_request` result into a client-method result by
decoding the payload inside the shared `try/except ValidationError`
wrapper. -/
def decodeStep {α : Type} (r : MakeReqResult) (decode : Json → Except PyExc α) :
    OpOutcome α × ClientState :=
  match r.outcome with
  | OpOutcome.ok data =>
    match wrapValidation (decode data) with
    | Except.ok v => (OpOutcome.ok v, r.state)
    | Except.error e => (OpOutcome.err e, r.state)
  | OpOutcome.err e => (OpOutcome.err e, r.state)
  | OpOutcome.blocked => (OpOutcome.blocked, r.state)

/-- `DexScreenerClient.get_token_info`. -/
def clientGetTokenInfo (st : ClientState) (now : Nat) (nets : List NetOutcome)
    (tokenAddress : String) : OpOutcome TokenResponse × ClientState :=
  decodeStep (makeRequest st now nets ("tokens/" ++ tokenAddress) []) decodeTokenResponse

/-- `DexScreenerClient.get_pair_info`. -/
def clientGetPairInfo (st : ClientState) (now : Nat) (nets : List NetOutcome)
    (chainId pairAddress : String) : OpOutcome PairResponse × ClientState :=
  decodeStep (makeRequest st now nets ("pairs/" ++ chainId ++ "/" ++ pairAddress) [])
    decodePairResponse

/-- The params dict built by `DexScreenerClient.search`:
`{"q": query}`, plus `"limit": str(limit)` when a limit is given. -/
def searchParams (query : String) (lim : Option Int) : List (String × String) :=
  ("q", query) :: (match lim with | some n => [("limit", toString n)] | none => [])

/-- `DexScreenerClient.search`. -/
def clientSearch (st : ClientState) (now : Nat) (nets : List NetOutcome)
    (query : String) (lim : Option Int) : OpOutcome SearchResult × ClientState :=
  decodeStep (makeRequest st now nets "search" (searchParams query lim)) decodeSearchResult

/-- `DexScreenerClient.get_trending_pairs`: `endpoint = chain_id if chain_id
else "tokens"` (an absent or empty — falsy — chain id gives the global
endpoint). -/
def clientGetTrendingPairs (st : ClientState) (now : Nat) (nets : List NetOutcome)
    (chainId : Option String) : OpOutcome TrendingResponse × ClientState :=
  let endpoint := match chainId with
    | some c => if c = "" then "tokens" else c
    | none => "tokens"
  decodeStep (makeRequest st now nets endpoint []) decodeTrendingResponse

/-- `data.get("pairs", [])` followed by `[PairInfo(**pair) for pair in
pairs_data]`, inside the `except ValidationError` wrapper.  A non-mapping
payload (no `.get`) or a non-list `pairs` value raises a `TypeError`-class
error that the wrapper does not catch. -/
def decodeMultiplePairs (data : Json) : Except PyExc (List PairInfo) :=
  match data with
  | Json.obj fields =>
    match (alistLookup fields "pairs").getD (Json.arr []) with
    | Json.arr elems => elems.mapM decodePairInfo
    | _ => Except.error (PyExc.typeError "pairs payload is not a list of mappings")
  | _ => Except.error (PyExc.typeError "object has no attribute get")

/-- `DexScreenerClient.get_multiple_pairs`: an empty (falsy) input list
short-circuits to `[]`; otherwise one GET on the comma-joined addresses. -/
def clientGetMultiplePairs (st : ClientState) (now : Nat) (nets : List NetOutcome)
    (pairAddresses : List String) : OpOutcome (List PairInfo) × ClientState :=
  if pairAddresses = [] then (OpOutcome.ok [], st)
  else
    decodeStep
      (makeRequest st now nets ("pairs/" ++ String.intercalate "," pairAddresses) [])
      decodeMultiplePairs

/-- `DexScreenerClient.get_rate_limit_info`: a synthetic local snapshot
derived from configuration, not a live value. -/
def clientGetRateLimitInfo (st : ClientState) (now : Nat) : RateLimitInfo :=
  ⟨st.rateLimit, now + 60, st.rateLimit⟩

mutual

/-- A plain rendering of a JSON value, standing in for
`json.dumps(result, indent=2, default=str)` (whitespace layout and string
escaping are abstracted; no claim inspects a rendered success payload). -/
def jsonRender : Json → String
  | Json.null => "null"
  | Json.bool b => cond b "true" "false"
  | Json.num n => toString n
  | Json.str s => "\"" ++ s ++ "\""
  | Json.arr elems => "[" ++ jsonRenderArr elems ++ "]"
  | Json.obj fields => "\x7b" ++ jsonRenderObj fields ++ "\x7d"

def jsonRenderArr : List Json → String
  | [] => ""
  | [x] => jsonRender x
  | x :: xs => jsonRender x ++ ", " ++ jsonRenderArr xs

def jsonRenderObj : List (String × Json) → String
  | [] => ""
  | [(k, v)] => "\"" ++ k ++ "\": " ++ jsonRender v
  | (k, v) :: fs => "\"" ++ k ++ "\": " ++ jsonRender v ++ ", " ++ jsonRenderObj fs

end

/-- The `response.dict()` / result-serialization step shared by the proxy
handlers: serialize a success, pass errors and suspensions through. -/
def mapOp {α : Type} (f : α → Json) : OpOutcome α × ClientState → OpOutcome Json × ClientState
  | (OpOutcome.ok r, st') => (OpOutcome.ok (f r), st')
  | (OpOutcome.err e, st') => (OpOutcome.err e, st')
  | (OpOutcome.blocked, st') => (OpOutcome.blocked, st')

/-- `DexScreenerMCPServer._get_token_info`: presence check, client call,
`.dict()` serialization. -/
def serverGetTokenInfo (st : ClientState) (now : Nat) (nets : List NetOutcome)
    (tokenAddress : String) : OpOutcome Json × ClientState :=
  if tokenAddress = "" then
    (OpOutcome.err (PyExc.valueError "token_address is required"), st)
  else mapOp encodeTokenResponse (clientGetTokenInfo st now nets tokenAddress)

/-- `DexScreenerMCPServer._get_pair_info`. -/
def serverGetPairInfo (st : ClientState) (now : Nat) (nets : List NetOutcome)
    (chainId pairAddress : String) : OpOutcome Json × ClientState :=
  if chainId = "" ∨ pairAddress = "" then
    (OpOutcome.err (PyExc.valueError "chain_id and pair_address are required"), st)
  else mapOp encodePairResponse (clientGetPairInfo st now nets chainId pairAddress)

/-- `DexScreenerMCPServer._search_tokens`: only the presence/truthiness of
`query` is checked; the `limit` value is forwarded untouched. -/
def serverSearchTokens (st : ClientState) (now : Nat) (nets : List NetOutcome)
    (query : String) (lim : Option Int) : OpOutcome Json × ClientState :=
  if query = "" then
    (OpOutcome.err (PyExc.valueError "query is required"), st)
  else mapOp encodeSearchResult (clientSearch st now nets query lim)

/-- `DexScreenerMCPServer._get_trending_pairs` (no validation). -/
def serverGetTrendingPairs (st : ClientState) (now : Nat) (nets : List NetOutcome)
    (chainId : Option String) : OpOutcome Json × ClientState :=
  mapOp encodeTrendingResponse (clientGetTrendingPairs st now nets chainId)

/-- `DexScreenerMCPServer._get_multiple_pairs`: only the presence/truthiness
of the list is checked (an empty list is falsy and rejected); its length is
never compared against the schema's 30-entry bound. -/
def serverGetMultiplePairs (st : ClientState) (now : Nat) (nets : List NetOutcome)
    (pairAddresses : List String) : OpOutcome Json × ClientState :=
  if pairAddresses = [] then
    (OpOutcome.err (PyExc.valueError "pair_addresses is required"), st)
  else
    mapOp (fun ps => Json.obj [("pairs", Json.arr (ps.map encodePairInfo))])
      (clientGetMultiplePairs st now nets pairAddresses)

/-- One static chain record of `_get_supported_chains`. -/
structure Chain where
  id : String
  name : String
  nativeCurrency : String
  explorer : String

/-- The static list in `DexScreenerMCPServer._get_supported_chains`. -/
def supportedChains : List Chain :=
  [⟨"ethereum", "Ethereum", "ETH", "https://etherscan.io"⟩,
   ⟨"bsc", "BNB Smart Chain", "BNB", "https://bscscan.com"⟩,
   ⟨"polygon", "Polygon", "MATIC", "https://polygonscan.com"⟩,
   ⟨"avalanche", "Avalanche", "AVAX", "https://snowtrace.io"⟩,
   ⟨"arbitrum", "Arbitrum One", "ETH", "https://arbiscan.io"⟩,
   ⟨"optimism", "Optimism", "ETH", "https://optimistic.etherscan.io"⟩,
   ⟨"base", "Base", "ETH", "https://basescan.org"⟩,
   ⟨"fantom", "Fantom", "FTM", "https://ftmscan.com"⟩]

def encodeChain (c : Chain) : Json :=
  Json.obj [("id", Json.str c.id), ("name", Json.str c.name),
    ("native_currency", Json.str c.nativeCurrency),
    ("explorer", Json.str c.explorer)]

/-- `DexScreenerMCPServer._get_supported_chains`: static reference data,
no client interaction. -/
def serverGetSupportedChains (st : ClientState) : OpOutcome Json × ClientState :=
  (OpOutcome.ok (Json.obj [("supported_chains",
      Json.arr (supportedChains.map encodeChain))]), st)

/-- `DexScreenerMCPServer._get_rate_limit_info`. -/
def serverGetRateLimitInfo (st : ClientState) (now : Nat) : OpOutcome Json × ClientState :=
  (OpOutcome.ok (encodeRateLimitInfo (clientGetRateLimitInfo st now)), st)

/-- The 7 names of the tool catalogue returned by `list_tools`. -/
def toolNames : List String :=
  ["get_token_info", "get_pair_info", "search_tokens", "get_trending_pairs",
   "get_multiple_pairs", "get_supported_chains", "get_rate_limit_info"]

/-- The extracted arguments a tool call can carry (the values the handlers
read out of the `arguments` dict; one field per distinct argument). -/
structure ToolArgs where
  tokenAddress : String
  chainId : String
  pairAddress : String
  query : String
  lim : Option Int
  trendingChainId : Option String
  pairAddresses : List String

/-- The `if tool_name == ... elif ...` routing inside `call_tool`, including
the final `raise ValueError(f"Unknown tool: {tool_name}")`. -/
def dispatchTool (st : ClientState) (now : Nat) (nets : List NetOutcome)
    (name : String) (args : ToolArgs) : OpOutcome Json × ClientState :=
  if name = "get_token_info" then serverGetTokenInfo st now nets args.tokenAddress
  else if name = "get_pair_info" then serverGetPairInfo st now nets args.chainId args.pairAddress
  else if name = "search_tokens" then serverSearchTokens st now nets args.query args.lim
  else if name = "get_trending_pairs" then serverGetTrendingPairs st now nets args.trendingChainId
  else if name = "get_multiple_pairs" then serverGetMultiplePairs st now nets args.pairAddresses
  else if name = "get_supported_chains" then serverGetSupportedChains st
  else if name = "get_rate_limit_info" then serverGetRateLimitInfo st now
  else (OpOutcome.err (PyExc.valueError ("Unknown tool: " ++ name)), st)

/-- `str(e)` for the modelled exceptions. -/
def excText : PyExc → String
  | PyExc.httpRequestError m => m
  | PyExc.httpStatusExc code text => "HTTP " ++ toString code ++ ": " ++ text
  | PyExc.dexAPIError m _ => m
  | PyExc.validationError m => m
  | PyExc.valueError m => m
  | PyExc.typeError m => m
  | PyExc.keyError k => "'" ++ k ++ "'"

/-- The error text produced by the three `except` clauses of `call_tool`.
`DexScreenerAPIError` appends ` (Status: <code>)` when `e.status_code` is
truthy (a `0` code is falsy and omitted, like `None`). -/
def toolErrorText : PyExc → String
  | PyExc.dexAPIError m (some code) =>
    if code = 0 then "DexScreener API Error: " ++ m
    else "DexScreener API Error: " ++ m ++ " (Status: " ++ toString code ++ ")"
  | PyExc.dexAPIError m none => "DexScreener API Error: " ++ m
  | PyExc.validationError m => "Validation Error: " ++ m
  | e => "Unexpected Error: " ++ excText e

/-- The `CallToolResult` a tool call produces: one text content and the
`isError` flag (absent, hence false, on success). -/
structure CallToolResult where
  text : String
  isError : Bool

/-- Result of the `call_tool` handler: a protocol result, or a suspension on
the rate limiter (the call neither returns nor raises while it waits). -/
inductive CallToolRes where
  | done (r : CallToolResult)
  | suspended

/-- `DexScreenerMCPServer.call_tool`: route inside a `try`, serialize a
success, and convert `DexScreenerAPIError` / `ValidationError` / any other
`Exception` into an error-flagged result instead of propagating. -/
def callTool (st : ClientState) (now : Nat) (nets : List NetOutcome)
    (name : String) (args : ToolArgs) : CallToolRes × ClientState :=
  match dispatchTool st now nets name args with
  | (OpOutcome.ok v, st') => (CallToolRes.done ⟨jsonRender v, false⟩, st')
  | (OpOutcome.err e, st') => (CallToolRes.done ⟨toolErrorText e, true⟩, st')
  | (OpOutcome.blocked, st') => (CallToolRes.suspended, st')

/-- `pat` is a leading segment of `s` (character lists). -/
def listStartsWith : List Char → List Char → Bool
  | [], _ => true
  | _ :: _, [] => false
  | a :: ps, b :: cs => decide (a = b) && listStartsWith ps cs

theorem listStartsWith_append_self (p r : List Char) :
    listStartsWith p (p ++ r) = true := by
  induction p with
  | nil => rfl
  | cons a ps ih => simp [listStartsWith, ih]

theorem listStartsWith_cons_ne (a b : Char) (ps cs : List Char) (h : a ≠ b) :
    listStartsWith (a :: ps) (b :: cs) = false := by
  simp [listStartsWith, h]

theorem strDataAppend (s t : String) : (s ++ t).data = s.data ++ t.data := rfl

/-- The marker every decode failure is re-raised with. -/
def invalidShapeTag : String := "Invalid response format: "

/-- The caller-side classifier for "invalid response shape" errors: a
`DexScreenerAPIError` whose message starts with the decode-failure marker. -/
def isShapeError : PyExc → Bool
  | PyExc.dexAPIError msg _ => listStartsWith invalidShapeTag.data msg.data
  | _ => false

theorem isShapeError_wrap (m : String) :
    isShapeError (PyExc.dexAPIError (invalidShapeTag ++ m) none) = true := by
  show listStartsWith invalidShapeTag.data (invalidShapeTag ++ m).data = true
  rw [strDataAppend]
  exact listStartsWith_append_self _ _

theorem isShapeError_http (code : Nat) (text : String) :
    isShapeError (PyExc.dexAPIError ("HTTP " ++ toString code ++ ": " ++ text) (some code)) = false := by
  show listStartsWith invalidShapeTag.data ("HTTP " ++ toString code ++ ": " ++ text).data = false
  rw [show invalidShapeTag.data = 'I' :: "nvalid response format: ".data from rfl,
    show ("HTTP " ++ toString code ++ ": " ++ text).data
      = 'H' :: ("TTP " ++ toString code ++ ": " ++ text).data from rfl]
  exact listStartsWith_cons_ne _ _ _ _ (by decide)

theorem isShapeError_reqfail (msg : String) :
    isShapeError (PyExc.dexAPIError ("Request failed: " ++ msg) none) = false := by
  show listStartsWith invalidShapeTag.data ("Request failed: " ++ msg).data = false
  rw [show invalidShapeTag.data = 'I' :: "nvalid response format: ".data from rfl,
    show ("Request failed: " ++ msg).data = 'R' :: ("equest failed: " ++ msg).data from rfl]
  exact listStartsWith_cons_ne _ _ _ _ (by decide)

/-- Every exception `_get_cached_data` can raise is a `KeyError`. -/
theorem getCachedData_err (st : ClientState) (key : String) (now : Nat) (e : PyExc)
    (st' : ClientState) (h : getCachedData st key now = (Except.error e, st')) :
    e = PyExc.keyError key := by
  unfold getCachedData at h
  split at h
  · split at h <;> simp_all
  · split at h
    · simp_all
    · split at h <;> simp_all

/-- Every exception the wrapped body of `_make_request` raises is either a
cache `KeyError` or a `DexScreenerAPIError` of one of the two normalized
message shapes; in particular it is never shape-classified and never matches
the tenacity retry predicate. -/
theorem makeRequestBody_err (st : ClientState) (now : Nat) (net : NetOutcome)
    (endpoint : String) (params : List (String × String)) (e : PyExc) (st' : ClientState)
    (h : makeRequestBody st now net endpoint params = (OpOutcome.err e, st')) :
    tenacityIsRetryable e = false ∧ isShapeError e = false := by
  obtain ⟨r, stc, hgc⟩ :
      ∃ r stc, getCachedData st (getCacheKey endpoint params) now = (r, stc) :=
    ⟨_, _, rfl⟩
  unfold makeRequestBody at h
  dsimp only at h
  rw [hgc] at h
  cases r with
  | error e0 =>
    have he := getCachedData_err st _ now e0 stc hgc
    dsimp only at h
    simp only [Prod.mk.injEq, OpOutcome.err.injEq] at h
    rw [← h.1, he]
    exact ⟨rfl, rfl⟩
  | ok o =>
    cases o with
    | some v => dsimp only at h; simp at h
    | none =>
      dsimp only at h
      split at h
      · simp at h
      · cases net with
        | success body => dsimp only at h; simp at h
        | httpStatusError code text =>
          dsimp only at h
          simp only [Prod.mk.injEq, OpOutcome.err.injEq] at h
          rw [← h.1]
          exact ⟨rfl, isShapeError_http code text⟩
        | requestError msg =>
          dsimp only at h
          simp only [Prod.mk.injEq, OpOutcome.err.injEq] at h
          rw [← h.1]
          exact ⟨rfl, isShapeError_reqfail msg⟩

/-- The retry loop collapses: whatever the wrapped body does on its first
run is final, because the body converts both retryable httpx exception
classes into `DexScreenerAPIError` before tenacity sees them. -/
theorem tenacityGo_succ (now : Nat) (endpoint : String) (params : List (String × String))
    (fuel : Nat) (st : ClientState) (nets : List NetOutcome) (a : Nat) (w : List Nat) :
    tenacityGo now endpoint params (fuel + 1) st nets a w =
      ⟨(makeRequestBody st now (netHead nets) endpoint params).1,
       (makeRequestBody st now (netHead nets) endpoint params).2, a + 1, w⟩ := by
  obtain ⟨res, st1, hb⟩ :
      ∃ res st1, makeRequestBody st now (netHead nets) endpoint params = (res, st1) :=
    ⟨_, _, rfl⟩
  rw [hb]
  unfold tenacityGo
  rw [hb]
  cases res with
  | ok v => rfl
  | blocked => rfl
  | err e =>
    have hr := (makeRequestBody_err st now (netHead nets) endpoint params e st1 hb).1
    simp [hr]

/-- `_make_request` always runs its body exactly once and never sleeps a
backoff delay: its result is the first attempt's result. -/
theorem makeRequest_single (st : ClientState) (now : Nat) (nets : List NetOutcome)
    (endpoint : String) (params : List (String × String)) :
    makeRequest st now nets endpoint params =
      ⟨(makeRequestBody st now (netHead nets) endpoint params).1,
       (makeRequestBody st now (netHead nets) endpoint params).2, 1, []⟩ := by
  unfold makeRequest
  exact tenacityGo_succ now endpoint params 2 st nets 0 []

/-- No error `_make_request` raises is shape-classified. -/
theorem makeRequest_err_shape (st : ClientState) (now : Nat) (nets : List NetOutcome)
    (endpoint : String) (params : List (String × String)) (e : PyExc)
    (h : (makeRequest st now nets endpoint params).outcome = OpOutcome.err e) :
    isShapeError e = false := by
  rw [makeRequest_single] at h
  obtain ⟨res, st1, hb⟩ :
      ∃ res st1, makeRequestBody st now (netHead nets) endpoint params = (res, st1) :=
    ⟨_, _, rfl⟩
  rw [hb] at h
  dsimp only at h
  subst h
  exact (makeRequestBody_err st now (netHead nets) endpoint params e st1 hb).2

theorem mapOp_state {α : Type} (f : α → Json) (p : OpOutcome α × ClientState) :
    (mapOp f p).2 = p.2 := by
  obtain ⟨o, s⟩ := p
  cases o <;> rfl

theorem decodeStep_state {α : Type} (r : MakeReqResult) (d : Json → Except PyExc α) :
    (decodeStep r d).2 = r.state := by
  unfold decodeStep
  cases ho : r.outcome with
  | ok data =>
    cases hw : wrapValidation (d data) <;> simp [hw]
  | err e => rfl
  | blocked => rfl

/-- A cache miss with a permit available and a successful GET: the payload
is returned, one permit is consumed, one network call is made and the
payload is cached. -/
theorem makeRequest_miss_success (st : ClientState) (now : Nat) (nets : List NetOutcome)
    (endpoint : String) (params : List (String × String)) (body : Json)
    (hmiss : isCacheValid st (getCacheKey endpoint params) now = false)
    (hnone : alistLookup st.cache (getCacheKey endpoint params) = none)
    (hperm : st.availablePermits ≠ 0)
    (hnet : netHead nets = NetOutcome.success body) :
    makeRequest st now nets endpoint params =
      ⟨OpOutcome.ok body,
       cacheData { st with availablePermits := st.availablePermits - 1,
                           permitsConsumed := st.permitsConsumed + 1,
                           networkCalls := st.networkCalls + 1 }
         (getCacheKey endpoint params) body now,
       1, []⟩ := by
  rw [makeRequest_single]
  have hg : getCachedData st (getCacheKey endpoint params) now = (Except.ok none, st) := by
    simp [getCachedData, hmiss, hnone]
  have hb : makeRequestBody st now (netHead nets) endpoint params =
      (OpOutcome.ok body,
       cacheData { st with availablePermits := st.availablePermits - 1,
                           permitsConsumed := st.permitsConsumed + 1,
                           networkCalls := st.networkCalls + 1 }
         (getCacheKey endpoint params) body now) := by
    unfold makeRequestBody
    dsimp only
    rw [hg, hnet]
    dsimp only
    rw [if_neg hperm]
  rw [hb]

/-- The two cache dictionaries agree on their key sets. -/
def sameKeys (st : ClientState) : Prop :=
  ∀ k, (alistLookup st.cache k).isSome = (alistLookup st.cacheTimestamps k).isSome

/-- One cache operation: a `_cache_data` write or a `_get_cached_data` read
(each carrying the clock value at which it runs). -/
inductive CacheOp where
  | put (key : String) (v : Json) (now : Nat)
  | get (key : String) (now : Nat)

def applyCacheOp (st : ClientState) : CacheOp → ClientState
  | CacheOp.put k v now => cacheData st k v now
  | CacheOp.get k now => (getCachedData st k now).2

def runCacheOps : ClientState → List CacheOp → ClientState
  | st, [] => st
  | st, op :: ops => runCacheOps (applyCacheOp st op) ops

theorem sameKeys_cacheData (st : ClientState) (k : String) (v : Json) (now : Nat)
    (h : sameKeys st) : sameKeys (cacheData st k v now) := by
  intro k'
  simp only [cacheData, alistLookup_insert]
  by_cases hk : k = k' <;> simp [hk, h k']

theorem sameKeys_getCachedData (st : ClientState) (k : String) (now : Nat)
    (h : sameKeys st) : sameKeys ((getCachedData st k now).2) := by
  unfold getCachedData
  split
  · cases hc : alistLookup st.cache k
    · exact h
    · exact h
  · cases hc : alistLookup st.cache k with
    | none => exact h
    | some w =>
      have hts : (alistLookup st.cacheTimestamps k).isSome = true := by
        rw [← h k, hc]; rfl
      obtain ⟨ts, hts'⟩ := Option.isSome_iff_exists.mp hts
      dsimp only
      rw [hts']
      intro k'
      simp only [alistLookup_erase]
      by_cases hk : k = k' <;> simp [hk, h k']

theorem sameKeys_runCacheOps (ops : List CacheOp) (st : ClientState) (h : sameKeys st) :
    sameKeys (runCacheOps st ops) := by
  induction ops generalizing st with
  | nil => exact h
  | cons op ops ih =>
    refine ih _ ?_
    cases op with
    | put k v now => exact sameKeys_cacheData st k v now h
    | get k now => exact sameKeys_getCachedData st k now h

/-- A fresh client with the default TTL, a 5-permit window and the default
rate limit, used as a concrete state by several witnesses. -/
def stEmpty : ClientState := initClientState 60 5 300

/-- C8: Calling `get_supported_chains` with empty arguments performs no
network call (the client state, and in particular its network-call counter,
is returned unchanged) and returns the static chain list, which is non-empty
and includes an entry with id "ethereum". -/
theorem c8_supported_chains_static (st : ClientState) :
    (serverGetSupportedChains st).2 = st ∧
    (serverGetSupportedChains st).1 =
      OpOutcome.ok (Json.obj [("supported_chains",
        Json.arr (supportedChains.map encodeChain))]) ∧
    supportedChains ≠ [] ∧
    ∃ c, c ∈ supportedChains ∧ c.id = "ethereum" := by
  refine ⟨rfl, rfl, by simp [supportedChains], ?_⟩
  exact ⟨⟨"ethereum", "Ethereum", "ETH", "https://etherscan.io"⟩,
    by simp [supportedChains], rfl⟩

/-- C3 (counterexample): at the tool layer, `get_multiple_pairs` invoked with
an empty list does not return an empty result: the handler raises
`ValueError("pair_addresses is required")` (reported as an error result),
with zero network calls. -/
theorem c3_counterexample :
    (serverGetMultiplePairs stEmpty 0 [] []).1 =
      OpOutcome.err (PyExc.valueError "pair_addresses is required") ∧
    (serverGetMultiplePairs stEmpty 0 [] []).2.networkCalls = 0 ∧
    (serverGetMultiplePairs stEmpty 0 [] []).1 ≠
      OpOutcome.ok (Json.obj [("pairs", Json.arr [])]) := by
  refine ⟨rfl, rfl, ?_⟩
  rw [show (serverGetMultiplePairs stEmpty 0 [] []).1 =
    OpOutcome.err (PyExc.valueError "pair_addresses is required") from rfl]
  simp

/-- C3 (amended): the client method `get_multiple_pairs` applied to an empty
list returns an empty list with the state (hence the rate limiter and the
network-call counter) unchanged; the `get_multiple_pairs` tool handler,
however, rejects an empty (falsy) list with `ValueError`, also without any
network call. -/
theorem c3_empty_pairs_list (st : ClientState) (now : Nat) (nets : List NetOutcome) :
    clientGetMultiplePairs st now nets [] = (OpOutcome.ok [], st) ∧
    serverGetMultiplePairs st now nets [] =
      (OpOutcome.err (PyExc.valueError "pair_addresses is required"), st) :=
  ⟨rfl, rfl⟩

/-- The network script for the C1 evaluation: two transient connection
failures, then a success that a third attempt would observe. -/
def netsTransientScript : List NetOutcome :=
  [NetOutcome.requestError "connection reset",
   NetOutcome.requestError "connection reset",
   NetOutcome.success (Json.obj [("pairs", Json.arr [])])]

/-- C1 (code bug, evaluated): on a cache miss whose first attempt fails with
a transient connection error — with a success available on a later attempt —
`_make_request` raises the normalized `DexScreenerAPIError` after exactly one
attempt, with no backoff wait and a single network call.  The body catches
`httpx.RequestError`/`httpx.HTTPStatusError` and re-raises
`DexScreenerAPIError`, which the tenacity predicate does not match, so the
configured 3-attempt retry never fires (see `makeRequest_single`). -/
theorem c1_retry_never_fires :
    (makeRequest stEmpty 0 netsTransientScript "tokens/0xabc" []).outcome =
      OpOutcome.err (PyExc.dexAPIError "Request failed: connection reset" none) ∧
    (makeRequest stEmpty 0 netsTransientScript "tokens/0xabc" []).attempts = 1 ∧
    (makeRequest stEmpty 0 netsTransientScript "tokens/0xabc" []).state.networkCalls = 1 ∧
    (makeRequest stEmpty 0 netsTransientScript "tokens/0xabc" []).waits = [] :=
  ⟨rfl, rfl, rfl, rfl⟩

/-- C4: a request whose cache key holds a valid entry returns the cached
payload after a single body run with the client state completely unchanged —
no permit is consumed, no network call is made, no retry or backoff is
engaged — regardless of how many permits are available (in particular with
zero). -/
theorem c4_cache_hit_bypasses_limiter (st : ClientState) (now : Nat)
    (nets : List NetOutcome) (endpoint : String) (params : List (String × String))
    (v : Json)
    (hvalid : isCacheValid st (getCacheKey endpoint params) now = true)
    (hhit : alistLookup st.cache (getCacheKey endpoint params) = some v) :
    makeRequest st now nets endpoint params = ⟨OpOutcome.ok v, st, 1, []⟩ := by
  rw [makeRequest_single]
  have hb : makeRequestBody st now (netHead nets) endpoint params = (OpOutcome.ok v, st) := by
    unfold makeRequestBody
    dsimp only
    rw [show getCachedData st (getCacheKey endpoint params) now = (Except.ok (some v), st) by
      simp [getCachedData, hvalid, hhit]]
  rw [hb]

/-- A client whose cache already holds the `tokens/0xabc` payload but whose
rate-limit window has zero permits left. -/
def stCachedNoPermits : ClientState :=
  { cache := [("tokens/0xabc", Json.obj [("pairs", Json.arr [])])],
    cacheTimestamps := [("tokens/0xabc", 0)], cacheTtl := 60,
    availablePermits := 0, permitsConsumed := 0, networkCalls := 0, rateLimit := 300 }

/-- Witness for C4: with zero permits available and a fresh cache entry, the
request still succeeds immediately, unchanged state and all. -/
theorem c4_cache_hit_bypasses_limiter_witness :
    stCachedNoPermits.availablePermits = 0 ∧
    isCacheValid stCachedNoPermits (getCacheKey "tokens/0xabc" []) 10 = true ∧
    alistLookup stCachedNoPermits.cache (getCacheKey "tokens/0xabc" []) =
      some (Json.obj [("pairs", Json.arr [])]) ∧
    makeRequest stCachedNoPermits 10 [] "tokens/0xabc" [] =
      ⟨OpOutcome.ok (Json.obj [("pairs", Json.arr [])]), stCachedNoPermits, 1, []⟩ :=
  ⟨rfl, rfl, rfl,
   c4_cache_hit_bypasses_limiter stCachedNoPermits 10 [] "tokens/0xabc" []
     (Json.obj [("pairs", Json.arr [])]) rfl rfl⟩

/-- C5: the cache round-trip and lazy eviction.  (1) With a positive TTL,
`_cache_data(k, v)` immediately followed by `_get_cached_data(k)` returns
`v` and leaves the state unchanged.  (2) For a key whose entry age has
reached the TTL, the read returns absent and deletes both the payload and
its timestamp.  (3) A never-seen key also reads as absent, with no state
change. -/
theorem c5_cache_roundtrip_and_expiry (st : ClientState) (k : String) (v : Json)
    (now : Nat) :
    (0 < st.cacheTtl →
      getCachedData (cacheData st k v now) k now =
        (Except.ok (some v), cacheData st k v now)) ∧
    (∀ ts w, alistLookup st.cacheTimestamps k = some ts → st.cacheTtl ≤ now - ts →
      alistLookup st.cache k = some w →
      getCachedData st k now =
        (Except.ok none,
         { st with cache := alistErase st.cache k,
                   cacheTimestamps := alistErase st.cacheTimestamps k })) ∧
    (alistLookup st.cacheTimestamps k = none → alistLookup st.cache k = none →
      getCachedData st k now = (Except.ok none, st)) := by
  refine ⟨?_, ?_, ?_⟩
  · intro hpos
    have hvalid : isCacheValid (cacheData st k v now) k now = true := by
      simp [isCacheValid, cacheData, alistLookup_insert, Nat.sub_self, hpos]
    have hhit : alistLookup (cacheData st k v now).cache k = some v := by
      simp [cacheData, alistLookup_insert]
    simp [getCachedData, hvalid, hhit]
  · intro ts w hts hexp hc
    have hvalid : isCacheValid st k now = false := by
      simp [isCacheValid, hts]
      omega
    simp [getCachedData, hvalid, hc, hts]
  · intro hts hc
    have hvalid : isCacheValid st k now = false := by
      simp [isCacheValid, hts]
    simp [getCachedData, hvalid, hc]

/-- A client holding one entry for key "k", written at time 0, TTL 60. -/
def stOneEntry : ClientState :=
  { cache := [("k", Json.str "payload")], cacheTimestamps := [("k", 0)],
    cacheTtl := 60, availablePermits := 5, permitsConsumed := 0,
    networkCalls := 0, rateLimit := 300 }

/-- Witness for C5: the three parts evaluated on concrete states — an
immediate round-trip on a fresh client, an expired read at `now = 60`
removing both entries, and a never-seen key. -/
theorem c5_cache_roundtrip_and_expiry_witness :
    (0 < stEmpty.cacheTtl ∧
      getCachedData (cacheData stEmpty "k" (Json.str "payload") 7) "k" 7 =
        (Except.ok (some (Json.str "payload")),
         cacheData stEmpty "k" (Json.str "payload") 7)) ∧
    (alistLookup stOneEntry.cacheTimestamps "k" = some 0 ∧
      stOneEntry.cacheTtl ≤ 60 - 0 ∧
      alistLookup stOneEntry.cache "k" = some (Json.str "payload") ∧
      getCachedData stOneEntry "k" 60 =
        (Except.ok none,
         { stOneEntry with cache := alistErase stOneEntry.cache "k",
                           cacheTimestamps := alistErase stOneEntry.cacheTimestamps "k" })) ∧
    (alistLookup stEmpty.cacheTimestamps "nope" = none ∧
      alistLookup stEmpty.cache "nope" = none ∧
      getCachedData stEmpty "nope" 3 = (Except.ok none, stEmpty)) :=
  ⟨⟨by decide,
    (c5_cache_roundtrip_and_expiry stEmpty "k" (Json.str "payload") 7).1 (by decide)⟩,
   ⟨rfl, by decide, rfl,
    (c5_cache_roundtrip_and_expiry stOneEntry "k" (Json.str "payload") 60).2.1
      0 (Json.str "payload") rfl (by decide) rfl⟩,
   ⟨rfl, rfl,
    (c5_cache_roundtrip_and_expiry stEmpty "nope" (Json.str "payload") 3).2.2 rfl rfl⟩⟩

/-- C10: for a non-empty input list, if the provider returns a JSON object
with no "pairs" key, the client-level `get_multiple_pairs` returns an empty
list (`data.get("pairs", [])` supplies the default) rather than raising a
decode error. -/
theorem c10_missing_pairs_defaults_empty (st : ClientState) (now : Nat)
    (nets : List NetOutcome) (addrs : List String) (fields : List (String × Json))
    (hne : addrs ≠ [])
    (hok : (makeRequest st now nets ("pairs/" ++ String.intercalate "," addrs) []).outcome
      = OpOutcome.ok (Json.obj fields))
    (hnok : alistLookup fields "pairs" = none) :
    (clientGetMultiplePairs st now nets addrs).1 = OpOutcome.ok [] := by
  unfold clientGetMultiplePairs
  rw [if_neg hne]
  unfold decodeStep
  rw [hok]
  dsimp only
  simp only [decodeMultiplePairs, hnok, Option.getD]
  rfl

/-- Witness for C10: a concrete one-address call whose payload is
`{"schemaVersion": "1.0.0"}` (no "pairs" key) returns the empty list. -/
theorem c10_missing_pairs_defaults_empty_witness :
    ((["ethereum:0x1"] : List String) ≠ []) ∧
    (makeRequest stEmpty 0 [NetOutcome.success (Json.obj [("schemaVersion", Json.str "1.0.0")])]
      ("pairs/" ++ String.intercalate "," ["ethereum:0x1"]) []).outcome =
      OpOutcome.ok (Json.obj [("schemaVersion", Json.str "1.0.0")]) ∧
    alistLookup [("schemaVersion", Json.str "1.0.0")] "pairs" = none ∧
    (clientGetMultiplePairs stEmpty 0
      [NetOutcome.success (Json.obj [("schemaVersion", Json.str "1.0.0")])]
      ["ethereum:0x1"]).1 = OpOutcome.ok [] :=
  ⟨by simp, rfl, rfl,
   c10_missing_pairs_defaults_empty stEmpty 0
     [NetOutcome.success (Json.obj [("schemaVersion", Json.str "1.0.0")])]
     ["ethereum:0x1"] [("schemaVersion", Json.str "1.0.0")] (by simp) rfl rfl⟩

/-- A network script with a single successful `{"pairs": []}` response. -/
def netsOkPairs : List NetOutcome :=
  [NetOutcome.success (Json.obj [("pairs", Json.arr [])])]

/-- C2 (counterexample): `search_tokens` called with `limit = 101` — outside
the schema's declared `[1, 100]` bound — is not rejected: the handler
forwards the limit and performs one network call, returning the provider's
result.  Likewise `get_multiple_pairs` with 31 entries — outside the
declared `[1, 30]` length bound — performs one network call. -/
theorem c2_counterexample :
    (serverSearchTokens stEmpty 0 netsOkPairs "usdc" (some 101)).2.networkCalls = 1 ∧
    (serverSearchTokens stEmpty 0 netsOkPairs "usdc" (some 101)).1 =
      OpOutcome.ok (encodeSearchResult ⟨[]⟩) ∧
    (serverGetMultiplePairs stEmpty 0 netsOkPairs
      (List.replicate 31 "solana:0x1")).2.networkCalls = 1 ∧
    (serverGetMultiplePairs stEmpty 0 netsOkPairs
      (List.replicate 31 "solana:0x1")).1 =
      OpOutcome.ok (Json.obj [("pairs", Json.arr [])]) :=
  ⟨rfl, rfl, rfl, rfl⟩

/-- C2 (amended): before any network call the handlers validate only
presence/truthiness — `search_tokens` requires a non-empty `query` and
`get_multiple_pairs` a non-empty list, each rejected with `ValueError` and
zero network calls — while the schema's numeric/length bounds are not
enforced: any limit value and any non-empty list length proceed to a
network call (given a cache miss and an available permit). -/
theorem c2_only_presence_checked (st : ClientState) (now : Nat) (nets : List NetOutcome)
    (query : String) (lim : Option Int) (addrs : List String) (body : Json) :
    (query ≠ "" →
      isCacheValid st (getCacheKey "search" (searchParams query lim)) now = false →
      alistLookup st.cache (getCacheKey "search" (searchParams query lim)) = none →
      st.availablePermits ≠ 0 →
      netHead nets = NetOutcome.success body →
      (serverSearchTokens st now nets query lim).2.networkCalls = st.networkCalls + 1) ∧
    (addrs ≠ [] →
      isCacheValid st (getCacheKey ("pairs/" ++ String.intercalate "," addrs) []) now = false →
      alistLookup st.cache (getCacheKey ("pairs/" ++ String.intercalate "," addrs) []) = none →
      st.availablePermits ≠ 0 →
      netHead nets = NetOutcome.success body →
      (serverGetMultiplePairs st now nets addrs).2.networkCalls = st.networkCalls + 1) ∧
    (serverSearchTokens st now nets "" lim =
      (OpOutcome.err (PyExc.valueError "query is required"), st)) ∧
    (serverGetMultiplePairs st now nets [] =
      (OpOutcome.err (PyExc.valueError "pair_addresses is required"), st)) := by
  refine ⟨?_, ?_, rfl, rfl⟩
  · intro hq hmiss hnone hperm hnet
    unfold serverSearchTokens
    rw [if_neg hq, mapOp_state]
    unfold clientSearch
    rw [decodeStep_state,
      makeRequest_miss_success st now nets "search" (searchParams query lim) body
        hmiss hnone hperm hnet]
    rfl
  · intro ha hmiss hnone hperm hnet
    unfold serverGetMultiplePairs
    rw [if_neg ha, mapOp_state]
    unfold clientGetMultiplePairs
    rw [if_neg ha, decodeStep_state,
      makeRequest_miss_success st now nets ("pairs/" ++ String.intercalate "," addrs) []
        body hmiss hnone hperm hnet]
    rfl

/-- Witness for C2 (amended): the out-of-bound inputs of the original claim
(`limit = 101`, 31 addresses) each trigger a network call on a fresh client,
and the two falsy inputs are rejected locally. -/
theorem c2_only_presence_checked_witness :
    ("usdc" ≠ "") ∧ (List.replicate 31 "solana:0x1" ≠ ([] : List String)) ∧
    (serverSearchTokens stEmpty 0 netsOkPairs "usdc" (some 101)).2.networkCalls =
      stEmpty.networkCalls + 1 ∧
    (serverGetMultiplePairs stEmpty 0 netsOkPairs
      (List.replicate 31 "solana:0x1")).2.networkCalls = stEmpty.networkCalls + 1 ∧
    serverSearchTokens stEmpty 0 netsOkPairs "" (some 101) =
      (OpOutcome.err (PyExc.valueError "query is required"), stEmpty) ∧
    serverGetMultiplePairs stEmpty 0 netsOkPairs [] =
      (OpOutcome.err (PyExc.valueError "pair_addresses is required"), stEmpty) :=
  ⟨by simp, by simp,
   (c2_only_presence_checked stEmpty 0 netsOkPairs "usdc" (some 101)
      (List.replicate 31 "solana:0x1") (Json.obj [("pairs", Json.arr [])])).1
     (by simp) rfl rfl (by simp [stEmpty, initClientState]) rfl,
   (c2_only_presence_checked stEmpty 0 netsOkPairs "usdc" (some 101)
      (List.replicate 31 "solana:0x1") (Json.obj [("pairs", Json.arr [])])).2.1
     (by simp) rfl rfl (by simp [stEmpty, initClientState]) rfl,
   (c2_only_presence_checked stEmpty 0 netsOkPairs "" (some 101)
      (List.replicate 31 "solana:0x1") (Json.obj [("pairs", Json.arr [])])).2.2.1,
   (c2_only_presence_checked stEmpty 0 netsOkPairs "" (some 101)
      (List.replicate 31 "solana:0x1") (Json.obj [("pairs", Json.arr [])])).2.2.2⟩

/-- C6: the `call_tool` dispatcher never lets a failure propagate: the
catalogue has exactly 7 names; a name outside it yields an error-flagged
result (via the caught `ValueError("Unknown tool: ...")`) with the state
untouched; every dispatch error of any exception class becomes an
error-flagged result with its `except`-clause text; and a dispatch success
becomes a non-error result.  (A call suspended on the rate limiter has not
failed — it has not returned yet.) -/
theorem c6_call_tool_funnels_errors (st : ClientState) (now : Nat)
    (nets : List NetOutcome) (name : String) (args : ToolArgs) :
    toolNames.length = 7 ∧
    (name ∉ toolNames →
      callTool st now nets name args =
        (CallToolRes.done ⟨"Unexpected Error: " ++ ("Unknown tool: " ++ name), true⟩, st)) ∧
    (∀ e st', dispatchTool st now nets name args = (OpOutcome.err e, st') →
      callTool st now nets name args = (CallToolRes.done ⟨toolErrorText e, true⟩, st')) ∧
    (∀ v st', dispatchTool st now nets name args = (OpOutcome.ok v, st') →
      callTool st now nets name args = (CallToolRes.done ⟨jsonRender v, false⟩, st')) := by
  refine ⟨rfl, ?_, ?_, ?_⟩
  · intro hname
    simp only [toolNames, List.mem_cons, List.not_mem_nil, or_false, not_or] at hname
    obtain ⟨h1, h2, h3, h4, h5, h6, h7⟩ := hname
    unfold callTool dispatchTool
    rw [if_neg h1, if_neg h2, if_neg h3, if_neg h4, if_neg h5, if_neg h6, if_neg h7]
    rfl
  · intro e st' hd
    unfold callTool
    rw [hd]
  · intro v st' hd
    unfold callTool
    rw [hd]

/-- Witness for C6: calling the unknown 8th name "frobnicate" on a fresh
client returns an error-flagged result, not a fault. -/
theorem c6_call_tool_funnels_errors_witness :
    ("frobnicate" ∉ toolNames) ∧
    callTool stEmpty 0 [] "frobnicate" ⟨"", "", "", "", none, none, []⟩ =
      (CallToolRes.done ⟨"Unexpected Error: " ++ ("Unknown tool: " ++ "frobnicate"), true⟩,
       stEmpty) :=
  ⟨by decide,
   (c6_call_tool_funnels_errors stEmpty 0 [] "frobnicate"
      ⟨"", "", "", "", none, none, []⟩).2.1 (by decide)⟩

/-- C7: for `get_token_info`, a payload that fails typed decoding is
surfaced as a `DexScreenerAPIError` whose message carries the
"Invalid response format: " marker and no status code, and the
`isShapeError` classifier distinguishes it from every fetch/network error
`_make_request` can raise (whose messages are "HTTP {code}: {text}" or
"Request failed: {msg}"). -/
theorem c7_decode_error_distinct (st : ClientState) (now : Nat)
    (nets : List NetOutcome) (tokenAddress : String) :
    (∀ data m,
      (makeRequest st now nets ("tokens/" ++ tokenAddress) []).outcome =
        OpOutcome.ok data →
      decodeTokenResponse data = Except.error (PyExc.validationError m) →
      (clientGetTokenInfo st now nets tokenAddress).1 =
        OpOutcome.err (PyExc.dexAPIError (invalidShapeTag ++ m) none) ∧
      isShapeError (PyExc.dexAPIError (invalidShapeTag ++ m) none) = true) ∧
    (∀ e,
      (makeRequest st now nets ("tokens/" ++ tokenAddress) []).outcome =
        OpOutcome.err e →
      (clientGetTokenInfo st now nets tokenAddress).1 = OpOutcome.err e ∧
      isShapeError e = false) := by
  constructor
  · intro data m hok hdec
    refine ⟨?_, isShapeError_wrap m⟩
    unfold clientGetTokenInfo decodeStep
    rw [hok]
    dsimp only
    rw [hdec]
    rfl
  · intro e herr
    refine ⟨?_, makeRequest_err_shape st now nets ("tokens/" ++ tokenAddress) [] e herr⟩
    unfold clientGetTokenInfo decodeStep
    rw [herr]

/-- Witness for C7: a provider payload `{"pairs": 5}` fails decoding and is
reported as the marked invalid-shape error. -/
theorem c7_decode_error_distinct_witness :
    (makeRequest stEmpty 0 [NetOutcome.success (Json.obj [("pairs", Json.num 5)])]
      ("tokens/" ++ "0xabc") []).outcome =
      OpOutcome.ok (Json.obj [("pairs", Json.num 5)]) ∧
    decodeTokenResponse (Json.obj [("pairs", Json.num 5)]) =
      Except.error (PyExc.validationError "pairs: value is not a valid list") ∧
    (clientGetTokenInfo stEmpty 0
      [NetOutcome.success (Json.obj [("pairs", Json.num 5)])] "0xabc").1 =
      OpOutcome.err (PyExc.dexAPIError
        (invalidShapeTag ++ "pairs: value is not a valid list") none) ∧
    isShapeError (PyExc.dexAPIError
      (invalidShapeTag ++ "pairs: value is not a valid list") none) = true :=
  ⟨rfl, rfl,
   ((c7_decode_error_distinct stEmpty 0
       [NetOutcome.success (Json.obj [("pairs", Json.num 5)])] "0xabc").1
     (Json.obj [("pairs", Json.num 5)]) "pairs: value is not a valid list" rfl rfl).1,
   ((c7_decode_error_distinct stEmpty 0
       [NetOutcome.success (Json.obj [("pairs", Json.num 5)])] "0xabc").1
     (Json.obj [("pairs", Json.num 5)]) "pairs: value is not a valid list" rfl rfl).2⟩

/-- C9: after any sequence of `_cache_data` / `_get_cached_data` operations
on a fresh client, the key sets of `_cache` and `_cache_timestamps`
coincide: every cached payload has exactly one timestamp and vice versa. -/
theorem c9_cache_keysets_agree (ttl permits rl : Nat) (ops : List CacheOp) :
    sameKeys (runCacheOps (initClientState ttl permits rl) ops) :=
  sameKeys_runCacheOps ops (initClientState ttl permits rl) (fun _ => rfl)
